import Mathlib

/-!
Shallow embedding of the wary test-orchestration core
(`wary/orchestrator.py`, `wary/ledger.py`, `wary/graph.py`, `wary/base.py`).

Subprocess executions and timestamps are modelled by an explicit world
(`RunWorld`): each `subprocess.run` call either completes with a return
code and captured stdout/stderr, or raises `subprocess.TimeoutExpired`.
Raised Python exceptions are modelled with `Except`: `Except.error`
means the Python call raised and the exception propagates.
-/

namespace Wary

/-- Model of `wary.base.TestResult` (a TypedDict in the source); timestamps are
abstracted to naturals, `environment` to an association list. -/
structure TestResult where
  test_id : String
  upstream_package : String
  upstream_version : String
  downstream_package : String
  downstream_version : String
  test_command : String
  commit_hash : String
  status : String
  started_at : Nat
  finished_at : Nat
  output : String
  exit_code : Int
  environment : List (String × String)
deriving Repr, DecidableEq

/-- Model of `wary.base.DependencyEdge` (a TypedDict in the source). -/
structure DependencyEdge where
  upstream : String
  downstream : String
  constraint : String
  registered_at : Nat
  risk_score : Rat
  metadata : List (String × String)
deriving Repr, DecidableEq

/-- Python `dict.get(key, default)` over an insertion-ordered association
list in which a later binding for a key overrides an earlier one
(Python dict update semantics). -/
def dictGet (m : List (String × String)) (k default : String) : String :=
  m.foldl (fun acc kv => if kv.1 = k then kv.2 else acc) default

/-! ## Results ledger (`wary/ledger.py`)

`ResultsLedger` wraps a `dol.Files` store keyed by `"{test_id}.json"`.
We model the store as an association list with unique keys in insertion
order; `__setitem__` overwrites the value of an existing key in place
or appends a fresh key at the end. -/

abbrev Ledger := List (String × TestResult)

/-- Model of `ResultsLedger.__setitem__`: overwrite the key if present, else create it. -/
def ledgerSet : Ledger → String → TestResult → Ledger
  | [], k, v => [(k, v)]
  | kv :: t, k, v => if kv.1 = k then (k, v) :: t else kv :: ledgerSet t k v

/-- Model of `ResultsLedger.add_result`: `self[result["test_id"]] = result`. -/
def add_result (l : Ledger) (r : TestResult) : Ledger :=
  ledgerSet l r.test_id r

/-- Python truthiness of an optional-string filter argument:
`None` and the empty string are both falsy (`if upstream_package and ...`). -/
def strTruthy : Option String → Bool
  | none => false
  | some s => !(s == "")

/-- Model of `ResultsLedger.query_results`: iterate over all stored results, keeping
a result unless a truthy filter argument disagrees with it; the `after`
filter keeps results with `started_at >= after` (a `datetime` is always
truthy, so only `None` disables that filter). -/
def query_results (l : Ledger) (upstream_package downstream_package status : Option String)
    (after : Option Nat) : List TestResult :=
  (l.map Prod.snd).filter fun r =>
    (!(strTruthy upstream_package) || r.upstream_package == upstream_package.getD "") &&
    (!(strTruthy downstream_package) || r.downstream_package == downstream_package.getD "") &&
    (!(strTruthy status) || r.status == status.getD "") &&
    (after.isNone || decide (after.getD 0 ≤ r.started_at))

/-- The comparison used by `results.sort(key=lambda r: r["started_at"], reverse=True)`:
a stable descending sort by `started_at`. -/
def laterFirst (a b : TestResult) : Bool :=
  b.started_at ≤ a.started_at

/-- Model of `ResultsLedger.get_latest_result`: query by the pair, sort descending by
`started_at`, return the first result or `None` when there are none. -/
def get_latest_result (l : Ledger) (upstream_package downstream_package : String) :
    Option TestResult :=
  ((query_results l (some upstream_package) (some downstream_package) none none).mergeSort
    laterFirst).head?

/-! ## Dependency graph (`wary/graph.py`)

`DependencyGraph` wraps a `dol.Files` store keyed by `"{upstream}.json"`
holding a JSON list of edges; modelled as an association list with unique
keys. -/

abbrev GraphStore := List (String × List DependencyEdge)

/-- Model of `Files.__setitem__` under the graph wrapper: overwrite the key if
present, else create it. -/
def storeSet : GraphStore → String → List DependencyEdge → GraphStore
  | [], k, v => [(k, v)]
  | kv :: t, k, v => if kv.1 = k then (k, v) :: t else kv :: storeSet t k v

structure DependencyGraph where
  store : GraphStore
deriving Repr, DecidableEq

/-- Model of `DependencyGraph.__getitem__`: look the upstream key up in the store;
a `KeyError` (absent key) is caught and yields the empty list. -/
def DependencyGraph.getItem (g : DependencyGraph) (upstream_pkg : String) :
    List DependencyEdge :=
  match g.store.lookup upstream_pkg with
  | some edges => edges
  | none => []

/-- Model of `DependencyGraph.__setitem__`. -/
def DependencyGraph.setItem (g : DependencyGraph) (upstream_pkg : String)
    (edges : List DependencyEdge) : DependencyGraph :=
  ⟨storeSet g.store upstream_pkg edges⟩

/-- The `edge_dict` literal built by `register_dependent`: `registered_at`
is `datetime.now()` (the `now` argument), `risk_score` defaults to `0.5`,
and the metadata dict holds the test command and contact followed by the
extra keyword metadata (later bindings overriding, per `dictGet`). -/
def registrationEdge (now : Nat)
    (upstream downstream constraint test_command contact : String)
    (metadata : List (String × String)) : DependencyEdge :=
  { upstream := upstream, downstream := downstream, constraint := constraint,
    registered_at := now, risk_score := 1/2,
    metadata := ("test_command", test_command) :: ("contact", contact) :: metadata }

/-- Model of `DependencyGraph.register_dependent`: read the edge list of the upstream,
drop any edge with the same downstream, append the fresh edge, write back. -/
def DependencyGraph.register_dependent (g : DependencyGraph) (now : Nat)
    (upstream downstream constraint test_command contact : String)
    (metadata : List (String × String)) : DependencyGraph :=
  let edges := g.getItem upstream
  let edge_dict := registrationEdge now upstream downstream constraint test_command
    contact metadata
  let edges := (edges.filter fun e => e.downstream ≠ downstream) ++ [edge_dict]
  g.setItem upstream edges

/-- Model of `DependencyGraph.get_dependents`: `return self[upstream]`. -/
def DependencyGraph.get_dependents (g : DependencyGraph) (upstream : String) :
    List DependencyEdge :=
  g.getItem upstream

/-! ## Orchestrator (`wary/orchestrator.py`) -/

/-- Python exceptions that the modelled subprocess calls can raise. -/
inductive PyExn where
  | timeoutExpired
deriving Repr, DecidableEq

/-- Outcome of a `subprocess.run(..., timeout=timeout)` call: the process
completed with a return code (negative when killed by a signal) and
captured streams, or the call raised `subprocess.TimeoutExpired`. -/
inductive ProcResult where
  | completed (returncode : Int) (stdout stderr : String)
  | timeoutExpired
deriving Repr, DecidableEq

/-- A `subprocess.run` call made without a `timeout` argument
(the `pip show` version check) always completes. -/
structure CompletedProc where
  returncode : Int
  stdout : String
  stderr : String
deriving Repr, DecidableEq

/-- Predicate `ProcResult.succeeded`: completed with return code 0. -/
def ProcResult.succeeded : ProcResult → Bool
  | .completed rc _ _ => rc == 0
  | .timeoutExpired => false

/-- The world of one `run_test` invocation: the generated `uuid4` test id,
the two `datetime.now()` readings, and the outcomes of the four
subprocess calls the body can make, in source order. -/
structure RunWorld where
  test_id : String
  started_at : Nat
  finished_at : Nat
  upstreamInstall : ProcResult
  downstreamInstall : ProcResult
  pipShow : CompletedProc
  testProc : ProcResult
deriving Repr, DecidableEq

/-- The externally observable actions of `run_test`, in execution order. -/
inductive Step where
  | installUpstream
  | installDownstream
  | showDownstreamVersion
  | runTestCommand
deriving Repr, DecidableEq

/-- Python `line.split(":", 1)[1]`: everything after the first colon
(empty when there is no colon, where Python would raise instead; the
source only applies this to lines starting with `"Version:"`). -/
def splitColonRest (line : String) : String :=
  match line.splitOn ":" with
  | [] => ""
  | [_] => ""
  | _ :: rest => String.intercalate ":" rest

/-- The `pip show` output scan of `run_test`: start from `"unknown"` and,
for each line beginning with `"Version:"`, replace the candidate by the
stripped text after the colon (the last such line wins). -/
def parseDownstreamVersion (out : String) : String :=
  (out.splitOn "\n").foldl
    (fun acc line =>
      if line.startsWith "Version:" then (splitColonRest line).trim else acc)
    "unknown"

/-- Model of `TestOrchestrator._create_error_result`. -/
def create_error_result (test_id upstream_package upstream_version downstream_package : String)
    (started_at finished_at : Nat) (error_msg : String) : TestResult :=
  { test_id := test_id
    upstream_package := upstream_package
    upstream_version := upstream_version
    downstream_package := downstream_package
    downstream_version := "unknown"
    test_command := ""
    commit_hash := "unknown"
    status := "error"
    started_at := started_at
    finished_at := finished_at
    output := error_msg
    exit_code := -1
    environment := [] }

/-- What `run_test` produces when it returns (rather than raises): the
`TestResult`, the ledger state after the call, and the subprocess steps
that were executed. -/
structure RunOutput where
  result : TestResult
  ledger : Ledger
  trace : List Step
deriving Repr, DecidableEq

/-- Model of `TestOrchestrator.run_test`. Creates the venv, installs the upstream
package pinned to the requested version (nonzero installer exit short-
circuits to an error result), installs the downstream package (same
short-circuit), reads the downstream version via `pip show`, runs the
test command, builds the result, and stores it in the ledger. A
`subprocess.TimeoutExpired` raised by any timed call is not caught and
propagates out (`Except.error`). -/
def run_test (w : RunWorld) (ledger : Ledger)
    (upstream_package upstream_version downstream_package test_command python_version :
      String) : Except PyExn RunOutput :=
  match w.upstreamInstall with
  | .timeoutExpired => .error .timeoutExpired
  | .completed rc _ stderr =>
    if rc ≠ 0 then
      .ok { result := create_error_result w.test_id upstream_package upstream_version
              downstream_package w.started_at w.finished_at
              ("Failed to install " ++ upstream_package ++ ": " ++ stderr)
            ledger := ledger
            trace := [.installUpstream] }
    else
      match w.downstreamInstall with
      | .timeoutExpired => .error .timeoutExpired
      | .completed rc2 _ stderr2 =>
        if rc2 ≠ 0 then
          .ok { result := create_error_result w.test_id upstream_package upstream_version
                  downstream_package w.started_at w.finished_at
                  ("Failed to install " ++ downstream_package ++ ": " ++ stderr2)
                ledger := ledger
                trace := [.installUpstream, .installDownstream] }
        else
          let downstream_version := parseDownstreamVersion w.pipShow.stdout
          let commit_hash := "unknown"
          match w.testProc with
          | .timeoutExpired => .error .timeoutExpired
          | .completed trc tout terr =>
            let status := if trc = 0 then "pass" else "fail"
            let result : TestResult :=
              { test_id := w.test_id
                upstream_package := upstream_package
                upstream_version := upstream_version
                downstream_package := downstream_package
                downstream_version := downstream_version
                test_command := test_command
                commit_hash := commit_hash
                status := status
                started_at := w.started_at
                finished_at := w.finished_at
                output := tout ++ "\n" ++ terr
                exit_code := trc
                environment := [("python_version", python_version)] }
            .ok { result := result
                  ledger := add_result ledger result
                  trace := [.installUpstream, .installDownstream,
                            .showDownstreamVersion, .runTestCommand] }

/-- The loop body of `TestOrchestrator.test_all_dependents`: run the
dependents in order, threading the ledger, collecting the results in
loop order and concatenating the executed steps. An exception raised by
`run_test` is not caught and aborts the loop (`Except.error`). `ws i`
is the world of the `i`-th `run_test` invocation. -/
def runBatchAux (ws : Nat → RunWorld) (i : Nat) (ledger : Ledger)
    (upstream_package upstream_version : String) (edges : List DependencyEdge) :
    Except PyExn (List TestResult × Ledger × List Step) :=
  match edges with
  | [] => .ok ([], ledger, [])
  | edge :: rest =>
    let test_cmd := dictGet edge.metadata "test_command" "pytest"
    match run_test (ws i) ledger upstream_package upstream_version edge.downstream
        test_cmd "python3" with
    | .error e => .error e
    | .ok out =>
      match runBatchAux ws (i + 1) out.ledger upstream_package upstream_version rest with
      | .error e => .error e
      | .ok (results, ledger2, trace2) =>
        .ok (out.result :: results, ledger2, out.trace ++ trace2)

/-- Model of `TestOrchestrator.test_all_dependents`: fetch the dependents of the
upstream package from the graph and run them one after the other. -/
def test_all_dependents (ws : Nat → RunWorld) (ledger : Ledger)
    (upstream_package upstream_version : String) (graph : DependencyGraph) :
    Except PyExn (List TestResult × Ledger × List Step) :=
  runBatchAux ws 0 ledger upstream_package upstream_version
    (graph.get_dependents upstream_package)

/-! ## Concrete fixtures used by counterexamples and witnesses -/

/-- A subprocess call that completes successfully. -/
def okProc : ProcResult := .completed 0 "ok" ""

/-- A world in which provisioning succeeds and the test command exceeds
its timeout, so `subprocess.run` raises `TimeoutExpired`. -/
def wTimeout : RunWorld :=
  { test_id := "t-timeout", started_at := 0, finished_at := 1,
    upstreamInstall := okProc, downstreamInstall := okProc,
    pipShow := { returncode := 0, stdout := "Version: 1.0\n", stderr := "" },
    testProc := .timeoutExpired }

/-- A world in which the upstream install exits nonzero. -/
def wUpFail : RunWorld :=
  { test_id := "t-upfail", started_at := 0, finished_at := 1,
    upstreamInstall := .completed 1 "" "No matching distribution found",
    downstreamInstall := okProc,
    pipShow := { returncode := 0, stdout := "", stderr := "" },
    testProc := okProc }

/-- A fault-free world in which every step succeeds. -/
def wOk : RunWorld :=
  { test_id := "t-ok", started_at := 0, finished_at := 1,
    upstreamInstall := okProc, downstreamInstall := okProc,
    pipShow := { returncode := 0, stdout := "Name: my-package\nVersion: 1.2.3\n", stderr := "" },
    testProc := .completed 0 "1 passed" "" }

/-- A world in which the test command is killed by SIGHUP, so
`subprocess.run` reports return code `-1`. -/
def wNeg1 : RunWorld :=
  { test_id := "t-neg1", started_at := 0, finished_at := 1,
    upstreamInstall := okProc, downstreamInstall := okProc,
    pipShow := { returncode := 0, stdout := "Version: 1.0\n", stderr := "" },
    testProc := .completed (-1) "" "Hangup" }

/-- A graph with the single registered edge (dol, my-package). -/
def graph1 : DependencyGraph :=
  (DependencyGraph.mk []).register_dependent 0 "dol" "my-package" "" "pytest tests/" "" []

/-- The value `test_all_dependents` returns on `graph1` when every run is
fault-free (used to instantiate theorems at a concrete input). -/
def batchOut1 : List TestResult × Ledger × List Step :=
  match test_all_dependents (fun _ => wOk) [] "dol" "0.2.51" graph1 with
  | .ok out => out
  | .error _ => ([], [], [])

/-- A placeholder `RunOutput` for impossible match arms of fixtures. -/
def dummyRunOutput : RunOutput :=
  { result := create_error_result "" "" "" "" 0 0 "", ledger := [], trace := [] }

/-- The output of a fault-free `run_test` on `wOk`. -/
def runOutOk : RunOutput :=
  match run_test wOk [] "dol" "0.2.51" "my-package" "pytest" "python3" with
  | .ok out => out
  | .error _ => dummyRunOutput

/-- The output of `run_test` on `wNeg1` (test command killed by SIGHUP,
return code `-1`). -/
def runOutNeg1 : RunOutput :=
  match run_test wNeg1 [] "dol" "0.2.51" "my-package" "pytest" "python3" with
  | .ok out => out
  | .error _ => dummyRunOutput

/-- The output of `run_test` on `wUpFail` (upstream install fails). -/
def runOutUpFail : RunOutput :=
  match run_test wUpFail [] "dol" "0.2.51" "my-package" "pytest" "python3" with
  | .ok out => out
  | .error _ => dummyRunOutput

/-- The arguments of one `register_dependent` call. -/
structure RegReq where
  now : Nat
  upstream : String
  downstream : String
  constraint : String
  test_command : String
  contact : String
  metadata : List (String × String)
deriving Repr, DecidableEq

/-- Apply one registration request. -/
def applyReg (g : DependencyGraph) (r : RegReq) : DependencyGraph :=
  g.register_dependent r.now r.upstream r.downstream r.constraint r.test_command
    r.contact r.metadata

/-- Apply a sequence of registration requests in order. -/
def applyRegs (regs : List RegReq) (g : DependencyGraph) : DependencyGraph :=
  regs.foldl applyReg g

/-- The graph holds at most one edge per (upstream, downstream) pair:
within each upstream edge list, downstream names are pairwise distinct. -/
def WellFormed (g : DependencyGraph) : Prop :=
  ∀ u, (g.getItem u).Pairwise (fun a b => a.downstream ≠ b.downstream)

/-- A stored result for the pair (x, d), used against the pair ("", d). -/
def rX : TestResult :=
  { test_id := "idX", upstream_package := "x", upstream_version := "1.0",
    downstream_package := "d", downstream_version := "2.0", test_command := "pytest",
    commit_hash := "unknown", status := "pass", started_at := 5, finished_at := 6,
    output := "", exit_code := 0, environment := [] }

def ledgerX : Ledger := [("idX", rX)]

/-- A stored result for the pair (u, d). -/
def rA : TestResult :=
  { test_id := "idA", upstream_package := "u", upstream_version := "1.0",
    downstream_package := "d", downstream_version := "2.0", test_command := "pytest",
    commit_hash := "unknown", status := "pass", started_at := 3, finished_at := 4,
    output := "", exit_code := 0, environment := [] }

def ledgerA : Ledger := [("idA", rA)]

/-! ## Helper lemmas -/

/-- Looking a key up after `storeSet` finds the just-written edge list. -/
theorem lookup_storeSet_self (s : GraphStore) (k : String) (v : List DependencyEdge) :
    (storeSet s k v).lookup k = some v := by
  induction s with
  | nil => simp [storeSet, List.lookup]
  | cons kv t ih =>
    obtain ⟨k1, v1⟩ := kv
    by_cases hk : k1 = k
    · simp [storeSet, hk, List.lookup]
    · simp only [storeSet, hk, if_false]
      have : (k == k1) = false := by simp [Ne.symm hk]
      simp [List.lookup, this, ih]

/-- Lemma: `storeSet` leaves the values of all other keys unchanged. -/
theorem lookup_storeSet_ne (s : GraphStore) (k k' : String)
    (v : List DependencyEdge) (h : k' ≠ k) :
    (storeSet s k v).lookup k' = s.lookup k' := by
  induction s with
  | nil =>
    have hbeq : (k' == k) = false := by simp [h]
    simp [storeSet, List.lookup, hbeq]
  | cons kv t ih =>
    obtain ⟨k1, v1⟩ := kv
    by_cases hk : k1 = k
    · subst hk
      have : (k' == k1) = false := by simp [h]
      simp [storeSet, List.lookup, this]
    · simp only [storeSet, hk, if_false]
      simp [List.lookup, ih]

/-- Reading back the upstream just written by `setItem`. -/
theorem getItem_setItem_self (g : DependencyGraph) (k : String)
    (v : List DependencyEdge) : (g.setItem k v).getItem k = v := by
  simp [DependencyGraph.getItem, DependencyGraph.setItem, lookup_storeSet_self]

/-- Lemma: `setItem` leaves the edges of all other upstreams unchanged. -/
theorem getItem_setItem_ne (g : DependencyGraph) (k k' : String)
    (v : List DependencyEdge) (h : k' ≠ k) :
    (g.setItem k v).getItem k' = g.getItem k' := by
  simp [DependencyGraph.getItem, DependencyGraph.setItem, lookup_storeSet_ne _ _ _ _ h]

/-- The edge list `register_dependent` leaves at its own upstream key. -/
theorem register_getItem_self (g : DependencyGraph) (now : Nat)
    (up down c tc ct : String) (m : List (String × String)) :
    (g.register_dependent now up down c tc ct m).getItem up =
      ((g.getItem up).filter fun e => e.downstream ≠ down) ++
        [registrationEdge now up down c tc ct m] := by
  simp only [DependencyGraph.register_dependent]
  exact getItem_setItem_self g up _

/-- Lemma: `register_dependent` leaves the edges of all other upstreams unchanged. -/
theorem register_getItem_ne (g : DependencyGraph) (now : Nat)
    (up down c tc ct : String) (m : List (String × String)) (u : String)
    (h : u ≠ up) :
    (g.register_dependent now up down c tc ct m).getItem u = g.getItem u := by
  simp only [DependencyGraph.register_dependent]
  exact getItem_setItem_ne g up u _ h

/-- One `register_dependent` call preserves well-formedness. -/
theorem wellFormed_applyReg (g : DependencyGraph) (r : RegReq)
    (hg : WellFormed g) : WellFormed (applyReg g r) := by
  intro u
  by_cases hu : u = r.upstream
  · subst hu
    rw [applyReg, register_getItem_self]
    rw [List.pairwise_append]
    refine ⟨List.Pairwise.sublist (List.filter_sublist _) (hg r.upstream), ?_, ?_⟩
    · simp
    · intro a ha b hb
      have hane := List.of_mem_filter ha
      simp only [decide_not, Bool.not_eq_eq_eq_not, Bool.not_true, decide_eq_false_iff_not] at hane
      have hb' : b = registrationEdge r.now r.upstream r.downstream r.constraint
          r.test_command r.contact r.metadata := by simpa using hb
      rw [hb']
      simpa [registrationEdge] using hane
  · rw [applyReg, register_getItem_ne _ _ _ _ _ _ _ _ _ hu]
    exact hg u

/-- Looking a key up after `ledgerSet` finds the just-written result. -/
theorem lookup_ledgerSet (l : Ledger) (k : String) (v : TestResult) :
    (ledgerSet l k v).lookup k = some v := by
  induction l with
  | nil => simp [ledgerSet, List.lookup]
  | cons kv t ih =>
    obtain ⟨k1, v1⟩ := kv
    by_cases hk : k1 = k
    · simp [ledgerSet, hk, List.lookup]
    · simp only [ledgerSet, hk, if_false]
      have : (k == k1) = false := by simp [Ne.symm hk]
      simp [List.lookup, this, ih]

/-- Shape of every value `run_test` can return without raising: either the
short-circuit error result (ledger untouched) or the pass/fail result of
the executed test command (persisted to the ledger). -/
theorem run_test_ok_cases (w : RunWorld) (l : Ledger) (up ver down cmd py : String)
    (out : RunOutput) (h : run_test w l up ver down cmd py = .ok out) :
    (out.result.status = "error" ∧ out.result.exit_code = -1 ∧ out.ledger = l) ∨
    (out.result.status = (if out.result.exit_code = 0 then "pass" else "fail") ∧
      out.ledger = add_result l out.result) := by
  simp only [run_test] at h
  split at h
  · cases h
  · split at h
    · cases h
      left
      exact ⟨rfl, rfl, rfl⟩
    · split at h
      · cases h
      · split at h
        · cases h
          left
          exact ⟨rfl, rfl, rfl⟩
        · split at h
          · cases h
          · cases h
            right
            exact ⟨rfl, rfl⟩

/-! ## Claims -/

/-- Claim C1, counterexample. — The batch is claimed to return exactly one
TestRun per input dependent regardless of faults raised inside a single
run of one dependent. On `graph1` (one dependent) whose test
command timing out, `test_all_dependents` does not return a list at all:
the uncaught `subprocess.TimeoutExpired` propagates and aborts the batch. -/
theorem C1_counterexample :
    (graph1.get_dependents "dol").length = 1 ∧
    test_all_dependents (fun _ => wTimeout) [] "dol" "0.2.51" graph1 =
      .error .timeoutExpired := by
  constructor <;> rfl

/-- Claim C1, amended. — Whenever `test_all_dependents` returns normally (no
run raised), it returns exactly one TestRun per input dependent; a fault
raised inside the run of one dependent is not caught and aborts the batch. -/
theorem C1_ok_length (ws : Nat → RunWorld) (l : Ledger) (up ver : String)
    (g : DependencyGraph) (rs : List TestResult) (l' : Ledger) (tr : List Step)
    (h : test_all_dependents ws l up ver g = .ok (rs, l', tr)) :
    rs.length = (g.get_dependents up).length := by
  have aux : ∀ (edges : List DependencyEdge) (i : Nat) (led : Ledger)
      (rs : List TestResult) (l' : Ledger) (tr : List Step),
      runBatchAux ws i led up ver edges = .ok (rs, l', tr) →
      rs.length = edges.length := by
    intro edges
    induction edges with
    | nil =>
      intro i led rs l' tr h
      simp only [runBatchAux] at h
      cases h
      rfl
    | cons edge rest ih =>
      intro i led rs l' tr h
      simp only [runBatchAux] at h
      split at h
      · cases h
      · next out hrun =>
        split at h
        · cases h
        · next results ledger2 trace2 hrec =>
          cases h
          simpa using ih (i + 1) out.ledger results _ trace2 hrec
  exact aux (g.get_dependents up) 0 l rs l' tr h

/-- Claim C1, witness. — On a one-dependent graph with a fault-free world the
batch returns one TestRun for its one dependent. -/
theorem C1_ok_length_witness :
    batchOut1.1.length = (graph1.get_dependents "dol").length :=
  C1_ok_length (fun _ => wOk) [] "dol" "0.2.51" graph1
    batchOut1.1 batchOut1.2.1 batchOut1.2.2 rfl

/-- Claim C2, counterexample. — A run whose test command exceeds the timeout is
claimed to yield a terminal TestRun; instead `run_test` raises
`subprocess.TimeoutExpired` (no TestRun is returned). -/
theorem C2_counterexample :
    run_test wTimeout [] "dol" "0.2.51" "my-package" "pytest tests/" "python3" =
      .error .timeoutExpired := rfl

/-- Claim C2, amended. — When both installs succeed and the test command times
out, `run_test` raises `subprocess.TimeoutExpired`, which propagates out
of the run (and, uncaught, past the batch boundary). -/
theorem C2_timeout_raises (w : RunWorld) (l : Ledger)
    (up ver down cmd py : String)
    (h1 : w.upstreamInstall.succeeded = true)
    (h2 : w.downstreamInstall.succeeded = true)
    (h3 : w.testProc = .timeoutExpired) :
    run_test w l up ver down cmd py = .error .timeoutExpired := by
  cases hu : w.upstreamInstall with
  | timeoutExpired => rw [hu] at h1; simp [ProcResult.succeeded] at h1
  | completed rc so se =>
    rw [hu] at h1
    simp only [ProcResult.succeeded, beq_iff_eq] at h1
    cases hd : w.downstreamInstall with
    | timeoutExpired => rw [hd] at h2; simp [ProcResult.succeeded] at h2
    | completed rc2 so2 se2 =>
      rw [hd] at h2
      simp only [ProcResult.succeeded, beq_iff_eq] at h2
      simp [run_test, hu, hd, h1, h2, h3]

/-- Claim C2, amended witness. — -/
theorem C2_timeout_raises_witness :
    run_test wTimeout [("k", create_error_result "" "" "" "" 0 0 "")]
      "dol" "0.2.51" "my-package" "pytest" "python3" = .error .timeoutExpired :=
  C2_timeout_raises wTimeout [("k", create_error_result "" "" "" "" 0 0 "")]
    "dol" "0.2.51" "my-package" "pytest" "python3" rfl rfl rfl

/-- Claim C3, counterexample. — The tri-partition is claimed for all reachable
exit codes, including negative signal-kill return codes. When the test
command is killed by SIGHUP, `subprocess.run` reports return code `-1`;
the run is classified `"fail"` with `exit_code = -1`, so
`status = "error" ⟺ exit_code = -1` is violated. -/
theorem C3_counterexample :
    run_test wNeg1 [] "dol" "0.2.51" "my-package" "pytest" "python3" = .ok runOutNeg1 ∧
    runOutNeg1.result.exit_code = -1 ∧
    runOutNeg1.result.status = "fail" ∧
    runOutNeg1.result.status ≠ "error" := by
  refine ⟨rfl, rfl, rfl, ?_⟩
  decide

/-- Claim C3, amended. — For every TestRun returned by `run_test`:
`status = "pass" ⟺ exit_code = 0`; `status = "error" ⟹ exit_code = -1`;
`status = "fail" ⟹ exit_code ≠ 0`; and `exit_code ∉ {-1, 0} ⟹ status = "fail"`.
The converse `exit_code = -1 ⟹ status = "error"` does not hold, because a
signal-killed test command also yields `exit_code = -1` (with status `"fail"`). -/
theorem C3_partition (w : RunWorld) (l : Ledger) (up ver down cmd py : String)
    (out : RunOutput) (h : run_test w l up ver down cmd py = .ok out) :
    (out.result.status = "pass" ↔ out.result.exit_code = 0) ∧
    (out.result.status = "error" → out.result.exit_code = -1) ∧
    (out.result.status = "fail" → out.result.exit_code ≠ 0) ∧
    (out.result.exit_code ≠ -1 ∧ out.result.exit_code ≠ 0 → out.result.status = "fail") := by
  rcases run_test_ok_cases w l up ver down cmd py out h with ⟨hs, he, _⟩ | ⟨hs, _⟩
  · rw [hs, he]
    refine ⟨?_, ?_, ?_, ?_⟩ <;> simp
  · by_cases hz : out.result.exit_code = 0
    · rw [hz] at hs
      simp only [if_pos rfl] at hs
      rw [hs, hz]
      refine ⟨?_, ?_, ?_, ?_⟩ <;> simp
    · rw [if_neg hz] at hs
      rw [hs]
      refine ⟨?_, ?_, ?_, ?_⟩ <;> simp [hz]

/-- Claim C3, amended witness. — -/
theorem C3_partition_witness :
    (runOutOk.result.status = "pass" ↔ runOutOk.result.exit_code = 0) ∧
    (runOutOk.result.status = "error" → runOutOk.result.exit_code = -1) ∧
    (runOutOk.result.status = "fail" → runOutOk.result.exit_code ≠ 0) ∧
    (runOutOk.result.exit_code ≠ -1 ∧ runOutOk.result.exit_code ≠ 0 →
      runOutOk.result.status = "fail") :=
  C3_partition wOk [] "dol" "0.2.51" "my-package" "pytest" "python3" runOutOk rfl

/-- Claim C4. — When the upstream install exits nonzero, `run_test` returns the
error result: status `"error"`, exit code `-1`, downstream version
`"unknown"`, output carrying the captured installer stderr, with only
the upstream install executed (no downstream install, no test command)
— and the ledger untouched. -/
theorem C4_upstream_fail (w : RunWorld) (l : Ledger) (up ver down cmd py : String)
    (rc : Int) (so se : String)
    (h1 : w.upstreamInstall = .completed rc so se) (h2 : rc ≠ 0) :
    run_test w l up ver down cmd py =
      .ok { result := create_error_result w.test_id up ver down w.started_at
              w.finished_at ("Failed to install " ++ up ++ ": " ++ se)
            ledger := l
            trace := [Step.installUpstream] } ∧
    (create_error_result w.test_id up ver down w.started_at w.finished_at
        ("Failed to install " ++ up ++ ": " ++ se)).status = "error" ∧
    (create_error_result w.test_id up ver down w.started_at w.finished_at
        ("Failed to install " ++ up ++ ": " ++ se)).exit_code = -1 ∧
    (create_error_result w.test_id up ver down w.started_at w.finished_at
        ("Failed to install " ++ up ++ ": " ++ se)).downstream_version = "unknown" ∧
    (create_error_result w.test_id up ver down w.started_at w.finished_at
        ("Failed to install " ++ up ++ ": " ++ se)).output =
      "Failed to install " ++ up ++ ": " ++ se := by
  refine ⟨?_, rfl, rfl, rfl, rfl⟩
  simp [run_test, h1, h2]

/-- Claim C4, witness. — -/
theorem C4_upstream_fail_witness :
    run_test wUpFail [] "dol" "0.2.51" "my-package" "pytest tests/" "python3" =
      .ok { result := create_error_result wUpFail.test_id "dol" "0.2.51" "my-package"
              wUpFail.started_at wUpFail.finished_at
              ("Failed to install " ++ "dol" ++ ": " ++ "No matching distribution found")
            ledger := []
            trace := [Step.installUpstream] } :=
  (C4_upstream_fail wUpFail [] "dol" "0.2.51" "my-package" "pytest tests/" "python3"
    1 "" "No matching distribution found" rfl (by decide)).1

/-- Claim C5, counterexample. — Every produced TestRun is claimed to be
persisted to the ledger. A run whose upstream install fails produces an
error-classified TestRun, yet `run_test` returns with the ledger exactly
as it was (empty here): `add_result` is never called on the error path. -/
theorem C5_counterexample :
    run_test wUpFail [] "dol" "0.2.51" "my-package" "pytest" "python3" =
      .ok runOutUpFail ∧
    runOutUpFail.result.status = "error" ∧
    runOutUpFail.ledger = [] :=
  ⟨rfl, rfl, rfl⟩

/-- Claim C5, amended. — A TestRun whose status is `"pass"` or `"fail"` is
persisted to the ledger under its own `test_id` when the run completes;
an `"error"`-classified TestRun is returned to the caller but never
written to the ledger. -/
theorem C5_persistence (w : RunWorld) (l : Ledger) (up ver down cmd py : String)
    (out : RunOutput) (h : run_test w l up ver down cmd py = .ok out) :
    (out.result.status ≠ "error" →
      out.ledger = add_result l out.result ∧
      out.ledger.lookup out.result.test_id = some out.result) ∧
    (out.result.status = "error" → out.ledger = l) := by
  rcases run_test_ok_cases w l up ver down cmd py out h with ⟨hs, _, hl⟩ | ⟨hs, hl⟩
  · exact ⟨fun hne => absurd hs hne, fun _ => hl⟩
  · constructor
    · intro _
      refine ⟨hl, ?_⟩
      rw [hl]
      exact lookup_ledgerSet l out.result.test_id out.result
    · intro herr
      rw [herr] at hs
      split at hs <;> simp at hs

/-- Claim C5, amended witness. — -/
theorem C5_persistence_witness :
    runOutOk.ledger.lookup runOutOk.result.test_id = some runOutOk.result :=
  ((C5_persistence wOk [] "dol" "0.2.51" "my-package" "pytest" "python3"
    runOutOk rfl).1 (by decide)).2

/-- Claim C6. — Registrations keep at most one edge per (upstream, downstream)
pair: any sequence of `register_dependent` calls starting from the empty
graph leaves every upstream edge list with pairwise-distinct downstream
names, and registering a pair against any graph state (in particular a
graph where the pair is already registered) leaves exactly one edge for
that pair, its metadata replaced by that of the latest call. -/
theorem C6_register_idempotent :
    (∀ regs : List RegReq, WellFormed (applyRegs regs ⟨[]⟩)) ∧
    (∀ (g : DependencyGraph) (r : RegReq),
      ((applyReg g r).get_dependents r.upstream).countP
        (fun e => e.downstream == r.downstream) = 1) := by
  constructor
  · have wfEmpty : WellFormed ⟨[]⟩ := by
      intro u
      simp [DependencyGraph.getItem, List.lookup]
    have wfAll : ∀ (regs : List RegReq) (g : DependencyGraph),
        WellFormed g → WellFormed (applyRegs regs g) := by
      intro regs
      induction regs with
      | nil => intro g hg; exact hg
      | cons r rest ih =>
        intro g hg
        have hstep : applyRegs (r :: rest) g = applyRegs rest (applyReg g r) := rfl
        rw [hstep]
        exact ih (applyReg g r) (wellFormed_applyReg g r hg)
    exact fun regs => wfAll regs _ wfEmpty
  · intro g r
    rw [DependencyGraph.get_dependents, applyReg, register_getItem_self]
    rw [List.countP_append]
    have h0 : ∀ a ∈ (g.getItem r.upstream).filter fun e => e.downstream ≠ r.downstream,
        ¬((fun e => e.downstream == r.downstream) a = true) := by
      intro a ha
      have hne := List.of_mem_filter ha
      simp only [decide_not, Bool.not_eq_eq_eq_not, Bool.not_true,
        decide_eq_false_iff_not] at hne
      simp [hne]
    rw [List.countP_eq_zero.mpr h0]
    simp [registrationEdge, List.countP_cons]

/-- Claim C7. — When the upstream has no registered dependents,
`test_all_dependents` returns the empty collection at once: no subprocess
step is executed, the ledger is unchanged, and no exception is raised. -/
theorem C7_empty_batch (ws : Nat → RunWorld) (l : Ledger) (up ver : String)
    (g : DependencyGraph) (h : g.get_dependents up = []) :
    test_all_dependents ws l up ver g = .ok ([], l, []) := by
  simp [test_all_dependents, h, runBatchAux]

/-- Claim C7, witness. — -/
theorem C7_empty_batch_witness :
    test_all_dependents (fun _ => wOk) [] "dol" "0.2.51" (DependencyGraph.mk []) =
      .ok ([], [], []) :=
  C7_empty_batch (fun _ => wOk) [] "dol" "0.2.51" (DependencyGraph.mk []) rfl

/-- Lemma: `laterFirst` is transitive. -/
theorem laterFirst_trans (a b c : TestResult) (hab : laterFirst a b = true)
    (hbc : laterFirst b c = true) : laterFirst a c = true := by
  simp only [laterFirst, decide_eq_true_eq] at hab hbc ⊢
  omega

/-- Lemma: `laterFirst` is total. -/
theorem laterFirst_total (a b : TestResult) :
    (laterFirst a b || laterFirst b a) = true := by
  simp only [laterFirst, Bool.or_eq_true, decide_eq_true_eq]
  omega

/-- For nonempty package names, membership in the pair query is membership
in the ledger values with both names matching. -/
theorem mem_query_pair (l : Ledger) (up down : String) (hu : up ≠ "")
    (hd : down ≠ "") (r : TestResult) :
    r ∈ query_results l (some up) (some down) none none ↔
      r ∈ l.map Prod.snd ∧ r.upstream_package = up ∧ r.downstream_package = down := by
  rw [query_results, List.mem_filter]
  simp [strTruthy, hu, hd]

/-- Claim C8, counterexample. — `get_latest_result` is claimed to return `none`
when the ledger holds no TestRun for the queried pair. The filters use
Python truthiness, so an empty-string upstream name disables the upstream
filter: querying the pair ("", "d") against a ledger holding only a run
for the pair ("x", "d") returns that run instead of `none`. -/
theorem C8_counterexample :
    get_latest_result ledgerX "" "d" = some rX ∧ rX.upstream_package ≠ "" := by
  constructor
  · have hq : query_results ledgerX (some "") (some "d") none none = [rX] := rfl
    rw [get_latest_result, hq, List.mergeSort_singleton]
    rfl
  · decide

/-- Claim C8, amended. — For every pair with nonempty upstream and downstream
names, `get_latest_result` returns `none` when the ledger holds no TestRun
for the pair, and otherwise a TestRun of that pair whose `started_at` is
maximal among the stored TestRuns of the pair. With an empty-string name the
corresponding filter is skipped (Python truthiness), so runs of other
pairs can be returned. -/
theorem C8_latest (l : Ledger) (up down : String) (hu : up ≠ "") (hd : down ≠ "") :
    ((∀ kv ∈ l, ¬(kv.2.upstream_package = up ∧ kv.2.downstream_package = down)) →
      get_latest_result l up down = none) ∧
    (∀ r, get_latest_result l up down = some r →
      r.upstream_package = up ∧ r.downstream_package = down ∧
      ∀ kv ∈ l, kv.2.upstream_package = up → kv.2.downstream_package = down →
        kv.2.started_at ≤ r.started_at) := by
  constructor
  · intro hnone
    have hqnil : query_results l (some up) (some down) none none = [] := by
      rw [List.eq_nil_iff_forall_not_mem]
      intro a ha
      rw [mem_query_pair l up down hu hd a] at ha
      obtain ⟨hmem, h1, h2⟩ := ha
      obtain ⟨kv, hkv, hkva⟩ := List.mem_map.mp hmem
      exact hnone kv hkv (by rw [hkva]; exact ⟨h1, h2⟩)
    rw [get_latest_result, hqnil, List.mergeSort_nil]
    rfl
  · intro r hr
    rw [get_latest_result] at hr
    have hperm := List.mergeSort_perm
      (query_results l (some up) (some down) none none) laterFirst
    have hsorted := @List.sorted_mergeSort TestResult laterFirst laterFirst_trans
      laterFirst_total (query_results l (some up) (some down) none none)
    cases hms : (query_results l (some up) (some down) none none).mergeSort laterFirst with
    | nil => rw [hms] at hr; cases hr
    | cons a tail =>
      rw [hms] at hr
      simp only [List.head?_cons, Option.some.injEq] at hr
      subst hr
      have hmem_r : a ∈ query_results l (some up) (some down) none none := by
        have hin : a ∈ (query_results l (some up) (some down) none none).mergeSort
            laterFirst := by
          rw [hms]; exact List.mem_cons_self a tail
        exact hperm.mem_iff.mp hin
      obtain ⟨_, hup, hdown⟩ := (mem_query_pair l up down hu hd a).mp hmem_r
      refine ⟨hup, hdown, ?_⟩
      intro kv hkv h1 h2
      have hkvq : kv.2 ∈ query_results l (some up) (some down) none none :=
        (mem_query_pair l up down hu hd kv.2).mpr
          ⟨List.mem_map_of_mem Prod.snd hkv, h1, h2⟩
      have hkvms : kv.2 ∈ (query_results l (some up) (some down) none none).mergeSort
          laterFirst := hperm.mem_iff.mpr hkvq
      rw [hms] at hkvms
      rcases List.mem_cons.mp hkvms with heq | htail
      · rw [heq]
      · rw [hms] at hsorted
        have hle := (List.pairwise_cons.mp hsorted).1 kv.2 htail
        simpa [laterFirst] using hle

/-- Claim C8, amended witness. — -/
theorem C8_latest_witness :
    get_latest_result ledgerA "u" "d" = some rA ∧ rA.upstream_package = "u" ∧
    rA.started_at ≤ rA.started_at := by
  have hsome : get_latest_result ledgerA "u" "d" = some rA := by
    have hq : query_results ledgerA (some "u") (some "d") none none = [rA] := rfl
    rw [get_latest_result, hq, List.mergeSort_singleton]
    rfl
  obtain ⟨h1, _, h3⟩ :=
    (C8_latest ledgerA "u" "d" (by decide) (by decide)).2 rA hsome
  exact ⟨hsome, h1, h3 ("idA", rA) (by simp [ledgerA]) rfl rfl⟩

/-- Claim C10. — An upstream absent from the store is read as the empty edge
list: the caught `KeyError` makes `__getitem__` and `get_dependents`
return `[]`, indistinguishable from an upstream whose stored edge list
is empty. -/
theorem C10_missing_upstream (g : DependencyGraph) (up : String)
    (h : g.store.lookup up = none) :
    g.getItem up = [] ∧ g.get_dependents up = [] ∧
    (g.setItem up []).get_dependents up = [] := by
  have h1 : g.getItem up = [] := by rw [DependencyGraph.getItem, h]
  refine ⟨h1, h1, ?_⟩
  rw [DependencyGraph.get_dependents]
  exact getItem_setItem_self g up []

/-- Claim C10, witness. — -/
theorem C10_missing_upstream_witness :
    (DependencyGraph.mk []).getItem "nonexistent" = [] ∧
    (DependencyGraph.mk []).get_dependents "nonexistent" = [] ∧
    ((DependencyGraph.mk []).setItem "nonexistent" []).get_dependents "nonexistent" =
      [] :=
  C10_missing_upstream (DependencyGraph.mk []) "nonexistent" rfl

end Wary
